import Mathlib

/-!
Verification of the pyaarlo device-discovery and refresh orchestrator
(`custom_components/aarlo/pyaarlo/__init__.py`, class `PyArlo`).

We shallowly embed the parts of `PyArlo` the specification talks about:

* raw device records (Python dicts) as association lists of string keys to
  heterogeneous values;
* the classification loop of `PyArlo.__init__` (lines 64-76);
* the metadata persistence step `PyArlo._parse_devices` (lines 104-111) over a
  key-path state store;
* the day-rollover portion of `PyArlo._fast_refresh` (lines 139-151);
* the device-reload portion of `PyArlo._slow_refresh` (lines 153-167);
* `PyArlo._refresh_devices` (lines 101-102) and `PyArlo.stop` (lines 174-176).

Monotonic timestamps and calendar dates are modelled as natural numbers; the
only operations the code performs on them are comparisons, so nothing is lost.
-/

namespace Aarlo

/-- A heterogeneous value stored in a raw device record (Python dict values).
The orchestrator only compares values for equality, so strings and integers
cover everything the claims touch. -/
inductive Value
  | str (s : String)
  | int (n : Int)
deriving DecidableEq, Repr

/-- A raw device record as returned by the remote inventory call: a mapping
from string keys to values (a Python dict, modelled as an association list
with unique keys; lookup finds the first binding). -/
abbrev RawDevice := List (String × Value)

/-- `device.get(key)` / `device.get(key, None)`: look a key up, `none` when
absent (or JSON null). -/
def RawDevice.field (device : RawDevice) (key : String) : Option Value :=
  List.lookup key device

/-- A classified device entity (`ArloBase` / `ArloCamera` / `ArloDoorBell`):
each constructor call `ArloX(dname, self, device)` captures the (possibly
absent) device name and the raw record. -/
structure DeviceRecord where
  name : Option Value
  raw : RawDevice
deriving DecidableEq, Repr

/-- The identity of a classified record: `device.get('deviceId')` of the raw
record it was built from. -/
def DeviceRecord.deviceId (r : DeviceRecord) : Option Value :=
  r.raw.field "deviceId"

/-- The three typed collections `self._bases`, `self._cameras`,
`self._doorbells`. -/
structure Collections where
  bases : List DeviceRecord
  cameras : List DeviceRecord
  doorbells : List DeviceRecord
deriving DecidableEq, Repr

/-- One iteration of the classification loop in `PyArlo.__init__`
(lines 64-76): the records this device contributes to the three collections.

Faithful to the source, including its failure mode: when the device is to be
skipped (its `state`, defaulting to `"unknown"`, is not `"provisioned"`), the
code logs `'skipping ' + dname + ': state unknown'`; if `deviceName` is absent
(`dname is None`) or not a string, that concatenation raises `TypeError`,
modelled here as `Except.error`. -/
def classifyDevice (device : RawDevice) : Except String Collections :=
  let dname := device.field "deviceName"
  let dtype := device.field "deviceType"
  if (device.field "state").getD (Value.str "unknown") ≠ Value.str "provisioned" then
    match dname with
    | some (Value.str _) => Except.ok ⟨[], [], []⟩
    | _ => Except.error "TypeError: can only concatenate str (not NoneType) to str"
  else
    let r : DeviceRecord := ⟨dname, device⟩
    Except.ok
      ⟨if dtype = some (Value.str "basestation") ∨ device.field "modelId" = some (Value.str "ABC1000")
          ∨ dtype = some (Value.str "arloq") ∨ dtype = some (Value.str "arloqs")
       then [r] else [],
       if dtype = some (Value.str "camera") ∨ dtype = some (Value.str "arloq")
          ∨ dtype = some (Value.str "arloqs")
       then [r] else [],
       if dtype = some (Value.str "doorbell") then [r] else []⟩

/-- The whole classification loop of `PyArlo.__init__` over the fetched
inventory `self._devices`, accumulating into the three collections in
iteration order; an exception raised on any device aborts the loop. -/
def classify : List RawDevice → Except String Collections
  | [] => Except.ok ⟨[], [], []⟩
  | device :: rest =>
    match classifyDevice device with
    | Except.error e => Except.error e
    | Except.ok c =>
      match classify rest with
      | Except.error e => Except.error e
      | Except.ok cs => Except.ok ⟨c.bases ++ cs.bases, c.cameras ++ cs.cameras, c.doorbells ++ cs.doorbells⟩

/-- The `ArloStorage` StateStore boundary: a mapping from key paths to values,
with `set` as point-wise overwrite (last write wins). Path components are the
values the caller passes (`PyArlo._parse_devices` passes the raw `deviceId`
value and a key string). -/
abbrev Store := List Value → Option Value

/-- `self._st.set(path, value)`. -/
def Store.set (st : Store) (path : List Value) (v : Value) : Store :=
  fun p => if p = path then some v else st p

/-- The body of `PyArlo._parse_devices` for one device (lines 106-111): when
`device.get('deviceId', None)` is not `None`, persist every tracked key of
`DEVICE_KEYS` that is present and non-null under `[device_id, key]`. The
tracked-key list `DEVICE_KEYS` (imported from `constant.py`) is a parameter. -/
def parseDevice (keys : List String) (device : RawDevice) (st : Store) : Store :=
  match device.field "deviceId" with
  | none => st
  | some device_id =>
    keys.foldl
      (fun acc key =>
        match device.field key with
        | none => acc
        | some value => acc.set [device_id, Value.str key] value)
      st

/-- `PyArlo._parse_devices` (lines 104-111): the per-device persistence step
over the whole fetched inventory, in order. -/
def parse_devices (keys : List String) (devices : List RawDevice) (st : Store) : Store :=
  devices.foldl (fun acc device => parseDevice keys device acc) st

/-- Specification machinery: a straight-line list of `(path, value)` writes
applied to a store in order. `parse_devices` is shown equal to applying such a
list, which makes idempotence and lookup arguments uniform. -/
def applyWrites (ws : List (List Value × Value)) (st : Store) : Store :=
  ws.foldl (fun acc w => acc.set w.1 w.2) st

/-- The last value a write list leaves at a path, if it writes it at all. -/
def lastWrite (ws : List (List Value × Value)) (p : List Value) : Option Value :=
  ws.foldl (fun acc w => if p = w.1 then some w.2 else acc) none

/-- The writes one device contributes in `PyArlo._parse_devices`. -/
def deviceWrites (keys : List String) (device : RawDevice) : List (List Value × Value) :=
  match device.field "deviceId" with
  | none => []
  | some device_id =>
    keys.filterMap fun key =>
      (device.field key).map (fun value => ([device_id, Value.str key], value))

/-- The writes the whole inventory contributes in `PyArlo._parse_devices`. -/
def inventoryWrites (keys : List String) (devices : List RawDevice) : List (List Value × Value) :=
  (devices.map (deviceWrites keys)).flatten

/-- The day-rollover portion of `PyArlo._fast_refresh` (lines 144-151): given
the stored `self._today` and the current calendar date, return the new stored
date together with how many media-library reload jobs (`self._ml.load`) and
how many camera-media rebuild jobs (`self._refresh_camera_media`) this tick
enqueues. Dates are abstract: the code only compares them for equality. -/
def fast_refresh_day (stored today : Nat) : Nat × Nat × Nat :=
  if stored ≠ today then (today, 1, 1) else (stored, 0, 0)

/-- The device-reload portion of `PyArlo._slow_refresh` (lines 158-167): given
the configured interval `self._cfg.refresh_devices_every`, the tick's
monotonic `now` and the pending deadline `self._refresh_devices_at`, return
the new deadline and whether a `self._refresh_devices` reload job was
enqueued on this tick. -/
def slow_refresh_reload (every now deadline : Nat) : Nat × Bool :=
  if every ≠ 0 then
    if now > deadline then (now + every, true) else (deadline, false)
  else (deadline, false)

/-- A run of consecutive slow ticks at the given monotonic times: the final
deadline and the total number of device-reload jobs enqueued across the run. -/
def run_slow_ticks (every : Nat) : List Nat → Nat → Nat × Nat
  | [], deadline => (deadline, 0)
  | now :: rest, deadline =>
    let step := slow_refresh_reload every now deadline
    let tail := run_slow_ticks every rest step.1
    (tail.1, (if step.2 then 1 else 0) + tail.2)

/-- The orchestrator state `PyArlo._refresh_devices` can touch: the raw
inventory `self._devices` and the three live collections. -/
structure ArloDeviceState where
  devices : List RawDevice
  bases : List DeviceRecord
  cameras : List DeviceRecord
  doorbells : List DeviceRecord
deriving DecidableEq, Repr

/-- `PyArlo._refresh_devices` (lines 101-102): replace `self._devices` with
the freshly fetched inventory. No other attribute is assigned. -/
def refresh_devices (fetched : List RawDevice) (s : ArloDeviceState) : ArloDeviceState :=
  { s with devices := fetched }

/-- The jobs `PyArlo.__init__` registers as recurring cadences (lines 94-95). -/
inductive Job
  | fast_refresh_job
  | slow_refresh_job
deriving DecidableEq, Repr

/-- Modelled from the spec: the TaskRunner (`ArloBackground`, file
`background.py`, not present in the sources) holds the recurring cadences
registered with `run_every` and a shutdown flag; on each period it fires every
recurring job unless it has been told to shut down, after which it fires
nothing (spec section 5, Cancellation; section 6, TaskRunner boundary). -/
structure Runner where
  recurring : List Job
  shutdown : Bool
deriving DecidableEq, Repr

/-- Modelled from the spec: one period of the TaskRunner — the recurring jobs
that fire, empty once the runner has been told to shut down. -/
def Runner.tick (r : Runner) : List Job :=
  if r.shutdown then [] else r.recurring

/-- The system state `PyArlo.stop` can touch: the task runner plus the two
effects `stop` performs (StateStore flushes and backend logout). -/
structure SystemState where
  runner : Runner
  st_saves : Nat
  logged_out : Bool
deriving DecidableEq, Repr

/-- `PyArlo.stop` (lines 174-176): `self._st.save()` then `self._be.logout()`.
No TaskRunner operation is invoked. -/
def stop (s : SystemState) : SystemState :=
  { runner := s.runner, st_saves := s.st_saves + 1, logged_out := true }

/-- The runner immediately after `PyArlo.__init__` registered the cron jobs
(lines 92-95): both cadences recurring, not shut down. -/
def initRunner : Runner :=
  { recurring := [Job.fast_refresh_job, Job.slow_refresh_job], shutdown := false }

/-- A concrete raw device for instantiations: a provisioned arloq. -/
def arloqDevice : RawDevice :=
  [("deviceId", Value.str "Q1"), ("deviceName", Value.str "Quad"),
   ("deviceType", Value.str "arloq"), ("state", Value.str "provisioned")]

/-- A concrete raw device for instantiations: a camera whose state is not
`"provisioned"`, hence skipped by classification. -/
def skippedDevice : RawDevice :=
  [("deviceId", Value.str "X1"), ("deviceName", Value.str "Front"),
   ("deviceType", Value.str "camera"), ("state", Value.str "unknown")]

/-- The empty StateStore. -/
def emptyStore : Store := fun _ => none

/-! ## Store-write machinery -/

theorem lastWrite_foldl (ws : List (List Value × Value)) (p : List Value) (a : Option Value) :
    List.foldl (fun acc w => if p = w.1 then some w.2 else acc) a ws = (lastWrite ws p).or a := by
  induction ws generalizing a with
  | nil => rfl
  | cons w ws ih =>
    show List.foldl _ (if p = w.1 then some w.2 else a) ws = _
    rw [ih]
    have hw : lastWrite (w :: ws) p = (lastWrite ws p).or (if p = w.1 then some w.2 else none) := by
      show List.foldl _ (if p = w.1 then some w.2 else none) ws = _
      rw [ih]
    rw [hw]
    cases lastWrite ws p <;> by_cases h : p = w.1 <;> simp [h]

theorem lastWrite_cons (w : List Value × Value) (ws : List (List Value × Value)) (p : List Value) :
    lastWrite (w :: ws) p = (lastWrite ws p).or (if p = w.1 then some w.2 else none) := by
  show List.foldl _ (if p = w.1 then some w.2 else none) ws = _
  rw [lastWrite_foldl]

theorem applyWrites_apply (ws : List (List Value × Value)) (st : Store) (p : List Value) :
    applyWrites ws st p = (lastWrite ws p).or (st p) := by
  induction ws generalizing st with
  | nil => rfl
  | cons w ws ih =>
    show applyWrites ws (st.set w.1 w.2) p = _
    rw [ih, lastWrite_cons]
    show (lastWrite ws p).or (if p = w.1 then some w.2 else st p) = _
    cases lastWrite ws p <;> by_cases h : p = w.1 <;> simp [h]

theorem applyWrites_append (a b : List (List Value × Value)) (st : Store) :
    applyWrites (a ++ b) st = applyWrites b (applyWrites a st) :=
  List.foldl_append ..

theorem applyWrites_idem (ws : List (List Value × Value)) (st : Store) :
    applyWrites ws (applyWrites ws st) = applyWrites ws st := by
  funext p
  rw [applyWrites_apply, applyWrites_apply]
  cases lastWrite ws p <;> simp

theorem parseDevice_foldl_eq (d : RawDevice) (did : Value) (keys : List String) (st : Store) :
    List.foldl
      (fun acc key =>
        match d.field key with
        | none => acc
        | some value => acc.set [did, Value.str key] value)
      st keys
    = applyWrites
        (keys.filterMap fun key => (d.field key).map (fun value => ([did, Value.str key], value)))
        st := by
  induction keys generalizing st with
  | nil => rfl
  | cons k ks ih =>
    rw [List.filterMap_cons, List.foldl_cons]
    cases hk : d.field k with
    | none => simp only [hk, Option.map_none]; exact ih st
    | some v =>
      simp only [hk, Option.map_some]
      exact ih (st.set [did, Value.str k] v)

theorem parseDevice_eq_applyWrites (keys : List String) (d : RawDevice) (st : Store) :
    parseDevice keys d st = applyWrites (deviceWrites keys d) st := by
  unfold parseDevice deviceWrites
  cases hid : d.field "deviceId" with
  | none => rfl
  | some did => exact parseDevice_foldl_eq d did keys st

theorem parse_devices_eq_applyWrites (keys : List String) (devices : List RawDevice) (st : Store) :
    parse_devices keys devices st = applyWrites (inventoryWrites keys devices) st := by
  induction devices generalizing st with
  | nil => rfl
  | cons d ds ih =>
    show parse_devices keys ds (parseDevice keys d st) = _
    rw [ih, parseDevice_eq_applyWrites]
    unfold inventoryWrites
    rw [List.map_cons, List.flatten_cons, applyWrites_append]

/-- Claim C9: running the metadata-persist step (`PyArlo._parse_devices`)
twice with identical RawDevice input, starting from the same StateStore,
produces the same final StateStore contents as running it once — no
duplication, last-write-wins per key. -/
theorem parse_devices_idempotent (keys : List String) (devices : List RawDevice) (st : Store) :
    parse_devices keys devices (parse_devices keys devices st) = parse_devices keys devices st := by
  rw [parse_devices_eq_applyWrites, parse_devices_eq_applyWrites]
  exact applyWrites_idem _ _

theorem mem_deviceWrites (keys : List String) (e : RawDevice) (w : List Value × Value) :
    w ∈ deviceWrites keys e ↔
      ∃ eid k v, e.field "deviceId" = some eid ∧ k ∈ keys ∧ e.field k = some v ∧
        w = ([eid, Value.str k], v) := by
  unfold deviceWrites
  cases hid : e.field "deviceId" with
  | none => simp
  | some did =>
    simp only [List.mem_filterMap, Option.map_eq_some', Option.some.injEq]
    constructor
    · rintro ⟨k, hk, v, hv, rfl⟩
      exact ⟨did, k, v, rfl, hk, hv, rfl⟩
    · rintro ⟨eid, k, v, heq, hk, hv, rfl⟩
      exact ⟨k, hk, v, hv, by rw [heq]⟩

theorem mem_inventoryWrites (keys : List String) (devices : List RawDevice)
    (w : List Value × Value) :
    w ∈ inventoryWrites keys devices ↔ ∃ e ∈ devices, w ∈ deviceWrites keys e := by
  unfold inventoryWrites
  simp [List.mem_flatten]

theorem lastWrite_eq_none_or_value (ws : List (List Value × Value)) (p : List Value) (v : Value)
    (h : ∀ w ∈ ws, w.1 = p → w.2 = v) :
    lastWrite ws p = none ∨ lastWrite ws p = some v := by
  induction ws with
  | nil => exact Or.inl rfl
  | cons w ws ih =>
    rw [lastWrite_cons]
    rcases ih (fun u hu hp => h u (List.mem_cons_of_mem _ hu) hp) with h0 | h0 <;> rw [h0]
    · by_cases hp : p = w.1
      · exact Or.inr (by simp [hp, h w (List.mem_cons_self _ _) hp.symm])
      · exact Or.inl (by simp [hp])
    · exact Or.inr (by simp)

theorem lastWrite_ne_none_of_mem (ws : List (List Value × Value)) (p : List Value) (v0 : Value)
    (h : (p, v0) ∈ ws) : lastWrite ws p ≠ none := by
  induction ws with
  | nil => cases h
  | cons w ws ih =>
    rw [lastWrite_cons]
    intro hnone
    rw [Option.or_eq_none] at hnone
    rcases List.mem_cons.mp h with h0 | h0
    · rw [← h0] at hnone
      simp at hnone
    · exact ih h0 hnone.1

/-- Claim C8: for every RawDevice in the fetched inventory with a non-null
deviceId, each tracked metadata key that is present and non-null is persisted
by `PyArlo._parse_devices` into the StateStore under path `[deviceId, key]`.
The statement has no hypothesis about the device's `state`, so it covers in
particular devices that classification skips; the agreement hypothesis
`hagree` reflects the data-model invariant that deviceIds are unique within an
account (devices sharing a deviceId must agree on the key's value). -/
theorem parse_devices_persists_metadata (keys : List String) (devices : List RawDevice)
    (st : Store) (d : RawDevice) (did : Value) (key : String) (v : Value)
    (hd : d ∈ devices) (hid : d.field "deviceId" = some did) (hk : key ∈ keys)
    (hv : d.field key = some v)
    (hagree : ∀ e ∈ devices, e.field "deviceId" = some did → e.field key = some v) :
    parse_devices keys devices st [did, Value.str key] = some v := by
  rw [parse_devices_eq_applyWrites, applyWrites_apply]
  have hmem : ([did, Value.str key], v) ∈ inventoryWrites keys devices :=
    (mem_inventoryWrites keys devices _).mpr
      ⟨d, hd, (mem_deviceWrites keys d _).mpr ⟨did, key, v, hid, hk, hv, rfl⟩⟩
  have huniq : ∀ w ∈ inventoryWrites keys devices, w.1 = [did, Value.str key] → w.2 = v := by
    intro w hw hp
    rcases (mem_inventoryWrites keys devices w).mp hw with ⟨e, he, hwe⟩
    rcases (mem_deviceWrites keys e w).mp hwe with ⟨eid, k, v1, heid, hkk, hvk, rfl⟩
    simp only [List.cons.injEq, Value.str.injEq, and_true] at hp
    rcases hp with ⟨h1, h2⟩
    subst h1
    subst h2
    have hsame := hagree e he heid
    rw [hvk] at hsame
    exact Option.some.inj hsame
  rcases lastWrite_eq_none_or_value _ _ v huniq with h0 | h0
  · exact absurd h0 (lastWrite_ne_none_of_mem _ _ v hmem)
  · rw [h0]
    rfl

theorem parse_devices_persists_metadata_witness :
    skippedDevice ∈ [skippedDevice] ∧
    skippedDevice.field "deviceId" = some (Value.str "X1") ∧
    "deviceName" ∈ ["deviceName"] ∧
    skippedDevice.field "deviceName" = some (Value.str "Front") ∧
    skippedDevice.field "state" ≠ some (Value.str "provisioned") ∧
    parse_devices ["deviceName"] [skippedDevice] emptyStore
      [Value.str "X1", Value.str "deviceName"] = some (Value.str "Front") :=
  ⟨by decide, by decide, by decide, by decide, by decide,
   parse_devices_persists_metadata ["deviceName"] [skippedDevice] emptyStore skippedDevice
     (Value.str "X1") "deviceName" (Value.str "Front") (by decide) (by decide) (by decide)
     (by decide) (by decide)⟩

/-! ## Classification -/

/-- Claim C5 (code bug): classification is not total. On a device whose
`deviceName` is absent and whose state is not `"provisioned"`, the skip
branch's log message `'skipping ' + dname + ': state unknown'` concatenates
`None` into a string and raises `TypeError`, aborting classification instead
of skipping and logging as the specification requires. -/
theorem classify_raises_on_missing_deviceName :
    classify [[("state", Value.str "unknown")]]
      = Except.error "TypeError: can only concatenate str (not NoneType) to str" := by
  rfl

/-- Claim C6: every RawDevice with deviceType `"arloq"` or `"arloqs"` and
state `"provisioned"` yields both a Base record and a Camera record (and no
Doorbell record), and the two records share the same deviceId. -/
theorem arloq_yields_base_and_camera (d : RawDevice)
    (hq : d.field "deviceType" = some (Value.str "arloq") ∨
          d.field "deviceType" = some (Value.str "arloqs"))
    (hs : d.field "state" = some (Value.str "provisioned")) :
    ∃ b c, classifyDevice d = Except.ok ⟨[b], [c], []⟩ ∧ b.deviceId = c.deviceId := by
  refine ⟨⟨d.field "deviceName", d⟩, ⟨d.field "deviceName", d⟩, ?_, rfl⟩
  rcases hq with hq | hq <;> simp [classifyDevice, hq, hs]

theorem arloq_yields_base_and_camera_witness :
    (arloqDevice.field "deviceType" = some (Value.str "arloq") ∨
     arloqDevice.field "deviceType" = some (Value.str "arloqs")) ∧
    arloqDevice.field "state" = some (Value.str "provisioned") ∧
    ∃ b c, classifyDevice arloqDevice = Except.ok ⟨[b], [c], []⟩ ∧ b.deviceId = c.deviceId :=
  ⟨by decide, by decide, arloq_yields_base_and_camera arloqDevice (by decide) (by decide)⟩

/-- Claim C7: a RawDevice whose `state` field is absent or not
`"provisioned"` contributes no Base, Camera or Doorbell record, whatever its
other fields: whenever the classification step completes on it, it returns
empty collections. -/
theorem unprovisioned_yields_no_records (d : RawDevice) (c : Collections)
    (hs : d.field "state" ≠ some (Value.str "provisioned"))
    (hok : classifyDevice d = Except.ok c) :
    c = ⟨[], [], []⟩ := by
  have hguard : (d.field "state").getD (Value.str "unknown") ≠ Value.str "provisioned" := by
    cases hstate : d.field "state" with
    | none => simp
    | some v => simpa [hstate] using hs
  simp only [classifyDevice, if_pos hguard] at hok
  cases hname : d.field "deviceName" with
  | none => rw [hname] at hok; simp at hok
  | some v =>
    cases v with
    | str nm =>
      rw [hname] at hok
      simp only [Except.ok.injEq] at hok
      exact hok.symm
    | int n => rw [hname] at hok; simp at hok

theorem unprovisioned_yields_no_records_witness :
    skippedDevice.field "state" ≠ some (Value.str "provisioned") ∧
    classifyDevice skippedDevice = Except.ok ⟨[], [], []⟩ ∧
    (⟨[], [], []⟩ : Collections) = ⟨[], [], []⟩ :=
  ⟨by decide, by rfl,
   unprovisioned_yields_no_records skippedDevice ⟨[], [], []⟩ (by decide) (by rfl)⟩

/-! ## Refresh cadences -/

/-- Claim C1 (counterexample): with interval 10 and pending deadline 5, a
qualifying slow tick at monotonic time 7 enqueues a reload job but sets the
new deadline to 17 = now + interval, not 15 = deadline + interval — deadlines
are reset from the tick's time, they do not accumulate in fixed steps. -/
theorem slow_refresh_reload_not_fixed_step :
    (slow_refresh_reload 10 7 5).2 = true ∧ (slow_refresh_reload 10 7 5).1 ≠ 5 + 10 := by
  decide

/-- Claim C1 (amended): for every slow tick with configured reload interval
I > 0, if monotonic now exceeds the pending deadline then exactly one
device-inventory reload job is enqueued and the deadline is reset to
now + I, measured from the tick's current monotonic time. -/
theorem slow_refresh_reload_resets_deadline (every now deadline : Nat)
    (h0 : every ≠ 0) (h1 : now > deadline) :
    slow_refresh_reload every now deadline = (now + every, true) := by
  simp [slow_refresh_reload, h0, h1]

theorem slow_refresh_reload_resets_deadline_witness :
    (10 ≠ 0) ∧ (7 > 5) ∧ slow_refresh_reload 10 7 5 = (7 + 10, true) :=
  ⟨by decide, by decide, slow_refresh_reload_resets_deadline 10 7 5 (by decide) (by decide)⟩

/-- Claim C2: with configured reload interval 0, no device-inventory reload
job is ever enqueued: for every starting deadline and every sequence of slow
ticks at arbitrary monotonic times, the total number of reload jobs is 0. -/
theorem no_reload_when_interval_zero (ticks : List Nat) (deadline : Nat) :
    (run_slow_ticks 0 ticks deadline).2 = 0 := by
  induction ticks generalizing deadline with
  | nil => rfl
  | cons now rest ih => simp [run_slow_ticks, slow_refresh_reload, ih]

/-- Claim C3: a fast tick executed on date d1 leaves d1 stored; a following
fast tick on date d2 ≠ d1 stores d2 and enqueues exactly one media-library
reload job and exactly one camera-media rebuild job; a further fast tick
still on d2 enqueues neither. -/
theorem day_rollover_detection (s d1 d2 : Nat) (h : d1 ≠ d2) :
    (fast_refresh_day s d1).1 = d1 ∧
    fast_refresh_day d1 d2 = (d2, 1, 1) ∧
    fast_refresh_day d2 d2 = (d2, 0, 0) := by
  refine ⟨?_, ?_, ?_⟩
  · by_cases hs : s = d1 <;> simp [fast_refresh_day, hs]
  · simp [fast_refresh_day, h]
  · simp [fast_refresh_day]

theorem day_rollover_detection_witness :
    (1 ≠ 2) ∧
    ((fast_refresh_day 0 1).1 = 1 ∧
     fast_refresh_day 1 2 = (2, 1, 1) ∧
     fast_refresh_day 2 2 = (2, 0, 0)) :=
  ⟨by decide, day_rollover_detection 0 1 2 (by decide)⟩

/-! ## Shutdown and device reload -/

/-- Claim C4 (counterexample): after `stop()` on the freshly initialised
system (both cadences registered, runner not shut down), the runner's next
period still fires both recurring cadences — scheduled jobs keep executing
after `stop()` is called. -/
theorem stop_does_not_cancel_cadences :
    Runner.tick (stop { runner := initRunner, st_saves := 0, logged_out := false }).runner
      = [Job.fast_refresh_job, Job.slow_refresh_job] ∧
    Runner.tick (stop { runner := initRunner, st_saves := 0, logged_out := false }).runner
      ≠ [] := by
  decide

/-- Claim C4 (amended): `stop()` flushes the StateStore and logs out the
remote session, but it invokes no TaskRunner operation: the runner state is
unchanged, so the recurring fast/slow cadences fire after `stop()` exactly as
they did before it. -/
theorem stop_flushes_and_logs_out_only (s : SystemState) :
    (stop s).st_saves = s.st_saves + 1 ∧ (stop s).logged_out = true ∧
    (stop s).runner = s.runner ∧ Runner.tick (stop s).runner = Runner.tick s.runner :=
  ⟨rfl, rfl, rfl, rfl⟩

/-- Claim C10: executing the device-inventory reload job
(`PyArlo._refresh_devices`) replaces the raw inventory with the freshly
fetched list but leaves the live bases, cameras and doorbells collections
unchanged: no re-classification occurs and every existing DeviceRecord in
those collections is untouched. -/
theorem refresh_devices_preserves_collections (fetched : List RawDevice) (s : ArloDeviceState) :
    (refresh_devices fetched s).bases = s.bases ∧
    (refresh_devices fetched s).cameras = s.cameras ∧
    (refresh_devices fetched s).doorbells = s.doorbells ∧
    (refresh_devices fetched s).devices = fetched :=
  ⟨rfl, rfl, rfl, rfl⟩

end Aarlo
